import Mathlib

/-!
Verification of the client-side realtime coordination layer
(src/src/routes/+layout.svelte) against its specification.

The TypeScript handlers are shallowly embedded as pure Lean functions:
stores become explicit state records, the socket and the callback become
output lists, JavaScript nullish values become Option / a JsVal type, and
asynchronous failure becomes Except.  Each embedded definition is
translated from the source file; line numbers refer to
src/src/routes/+layout.svelte.
-/

/-- A JavaScript value as it occurs in the channel `type` field: the field
may be missing (undefined), be JSON null, or be a string.  Array.indexOf
uses strict equality, so undefined and null are distinct. -/
inductive JsVal
  | undef
  | null
  | str (s : String)
deriving DecidableEq

/-- A channel summary as used by channelEventHandler (lines 303-347):
id, type, unread_count (possibly absent) and last_message_at (possibly
absent).  Fields not read by the handler are omitted. -/
structure Channel where
  id : String
  type : JsVal
  unread_count : Option Int
  last_message_at : Option Int
deriving DecidableEq

/-- The sort key of the channel comparator
(a, b) => ['', null, 'group', 'dm'].indexOf(a.type) - [...].indexOf(b.type)
at lines 309 and 331: Array.indexOf with strict equality, returning -1 for
anything not in the array (including undefined and unknown strings). -/
def channelTypePriority : JsVal → Int
  | .str "" => 0
  | .null => 1
  | .str "group" => 2
  | .str "dm" => 3
  | _ => -1

/-- The comparator order used by res.sort at lines 309 and 331. -/
def chanLE (a b : Channel) : Prop :=
  channelTypePriority a.type ≤ channelTypePriority b.type

instance : DecidableRel chanLE := fun a b =>
  inferInstanceAs (Decidable (channelTypePriority a.type ≤ channelTypePriority b.type))

instance : IsTotal Channel chanLE :=
  ⟨fun a b => Int.le_total (channelTypePriority a.type) (channelTypePriority b.type)⟩

instance : IsTrans Channel chanLE :=
  ⟨fun _ _ _ hab hbc => Int.le_trans hab hbc⟩

/-- Embedding of res.sort(comparator) at lines 309 and 331.
ECMAScript 2019 requires Array.prototype.sort to be stable, and the
comparator is a consistent difference of integer keys, so the call is a
stable sort by channelTypePriority; we embed it as insertion sort, which
is stable for this order. -/
def sortChannels (l : List Channel) : List Channel :=
  l.insertionSort chanLE

/-- Inserting c into l keeps every element of l whose priority differs
from that of c in place. -/
theorem orderedInsert_filter_ne (c : Channel) (k : Int)
    (hc : ¬ channelTypePriority c.type = k) :
    ∀ l : List Channel,
      (l.orderedInsert chanLE c).filter (fun x => channelTypePriority x.type == k) =
        l.filter (fun x => channelTypePriority x.type == k)
  | [] => by
    have : (channelTypePriority c.type == k) = false := by simpa using hc
    simp [List.orderedInsert, List.filter, this]
  | d :: l => by
    by_cases hcd : chanLE c d
    · simp only [List.orderedInsert, if_pos hcd, List.filter]
      have : (channelTypePriority c.type == k) = false := by
        simpa using hc
      rw [this]
    · simp only [List.orderedInsert, if_neg hcd, List.filter]
      cases hdk : channelTypePriority d.type == k <;>
        simp [orderedInsert_filter_ne c k hc l]

/-- Inserting c into l puts c in front of every element of l with the same
priority as c: together with orderedInsert_filter_ne this is stability of
the embedded sort. -/
theorem orderedInsert_filter_eq (c : Channel) (k : Int)
    (hc : channelTypePriority c.type = k) :
    ∀ l : List Channel,
      (l.orderedInsert chanLE c).filter (fun x => channelTypePriority x.type == k) =
        c :: l.filter (fun x => channelTypePriority x.type == k)
  | [] => by simp [List.orderedInsert, List.filter, hc]
  | d :: l => by
    by_cases hcd : chanLE c d
    · simp only [List.orderedInsert, if_pos hcd, List.filter]
      have : (channelTypePriority c.type == k) = true := by simpa using hc
      rw [this]
    · have hdk : (channelTypePriority d.type == k) = false := by
        have hlt : channelTypePriority d.type < channelTypePriority c.type := by
          have := not_le.mp (fun h => hcd h)
          exact this
        simp only [beq_eq_false_iff_ne, ne_eq]
        intro h
        rw [h, hc] at hlt
        exact lt_irrefl _ hlt
      simp only [List.orderedInsert, if_neg hcd, List.filter, hdk]
      exact orderedInsert_filter_eq c k hc l

/-- Stability of the embedded channel sort: the subsequence of channels at
any fixed priority is exactly the original fetch-order subsequence. -/
theorem sortChannels_filter (k : Int) :
    ∀ l : List Channel,
      (sortChannels l).filter (fun x => channelTypePriority x.type == k) =
        l.filter (fun x => channelTypePriority x.type == k)
  | [] => rfl
  | c :: l => by
    show ((sortChannels l).orderedInsert chanLE c).filter _ = _
    by_cases hc : channelTypePriority c.type = k
    · rw [orderedInsert_filter_eq c k hc, sortChannels_filter k l]
      simp [List.filter, hc]
    · rw [orderedInsert_filter_ne c k hc, sortChannels_filter k l]
      have : (channelTypePriority c.type == k) = false := by simpa using hc
      simp [List.filter, this]

/-- Every sort key produced by the comparator is at least -1. -/
theorem channelTypePriority_ge_neg_one (t : JsVal) : -1 ≤ channelTypePriority t := by
  rcases t with _ | _ | s
  · simp [channelTypePriority]
  · simp [channelTypePriority]
  · unfold channelTypePriority
    split <;> omega

/-- C3: after a re-fetch the channel list is replaced by a permutation of
the fetched list that is sorted solely by the type-priority key from the
list ['', null, 'group', 'dm'], with ties between equal-priority channels
kept in original fetch order (stability), and in particular a dm channel
can only appear strictly after any group channel, regardless of every
other field. -/
theorem channel_list_sort_spec (l : List Channel) :
    List.Perm (sortChannels l) l
    ∧ List.Sorted chanLE (sortChannels l)
    ∧ (∀ k : Int,
        (sortChannels l).filter (fun x => channelTypePriority x.type == k) =
          l.filter (fun x => channelTypePriority x.type == k))
    ∧ (∀ i j (hi : i < (sortChannels l).length) (hj : j < (sortChannels l).length),
        ((sortChannels l).get ⟨i, hi⟩).type = JsVal.str "dm" →
        ((sortChannels l).get ⟨j, hj⟩).type = JsVal.str "group" → j < i) := by
  refine ⟨List.perm_insertionSort chanLE l, List.sorted_insertionSort chanLE l,
    fun k => sortChannels_filter k l, ?_⟩
  intro i j hi hj hdm hgrp
  by_contra hji
  have hs : List.Sorted chanLE (sortChannels l) := List.sorted_insertionSort chanLE l
  have hij : i < j ∨ i = j := by omega
  rcases hij with hij | rfl
  · have hrel : channelTypePriority ((sortChannels l).get ⟨i, hi⟩).type ≤
        channelTypePriority ((sortChannels l).get ⟨j, hj⟩).type :=
      hs.rel_get_of_lt (a := ⟨i, hi⟩) (b := ⟨j, hj⟩) hij
    rw [hdm, hgrp] at hrel
    simp [channelTypePriority] at hrel
  · rw [hdm] at hgrp
    simp at hgrp

/-- Concrete instantiation of the sort specification: on a two-element
fetch [dm-channel, group-channel] the dm channel ends up strictly after
the group channel. -/
theorem channel_list_sort_spec_witness :
    (0 : Nat) < 1 ∧
      sortChannels
          [{ id := "a", type := .str "dm", unread_count := none, last_message_at := some 9 },
           { id := "b", type := .str "group", unread_count := some 2, last_message_at := some 1 }] =
        [{ id := "b", type := .str "group", unread_count := some 2, last_message_at := some 1 },
         { id := "a", type := .str "dm", unread_count := none, last_message_at := some 9 }] := by
  refine ⟨?_, by decide⟩
  exact (channel_list_sort_spec
    [{ id := "a", type := .str "dm", unread_count := none, last_message_at := some 9 },
     { id := "b", type := .str "group", unread_count := some 2, last_message_at := some 1 }]).2.2.2
    1 0 (by decide) (by decide) (by decide) (by decide)

/-- C10: in the channel-list comparator any type outside
['', null, 'group', 'dm'] (including a missing field) gets key -1, and in
the sorted list every such channel appears strictly before every channel
whose type is in the priority list, '' and null included. -/
theorem channel_sort_unknown_type_first (l : List Channel) :
    (∀ t : JsVal,
      t ≠ .str "" → t ≠ .null → t ≠ .str "group" → t ≠ .str "dm" →
        channelTypePriority t = -1)
    ∧ (∀ i j (hi : i < (sortChannels l).length) (hj : j < (sortChannels l).length),
        channelTypePriority ((sortChannels l).get ⟨i, hi⟩).type = -1 →
        channelTypePriority ((sortChannels l).get ⟨j, hj⟩).type ≠ -1 → i < j) := by
  constructor
  · intro t h1 h2 h3 h4
    unfold channelTypePriority
    split <;> simp_all
  · intro i j hi hj hunk hknown
    by_contra hij
    have hs : List.Sorted chanLE (sortChannels l) := List.sorted_insertionSort chanLE l
    have hji : j < i ∨ j = i := by omega
    rcases hji with hji | rfl
    · have hrel : channelTypePriority ((sortChannels l).get ⟨j, hj⟩).type ≤
          channelTypePriority ((sortChannels l).get ⟨i, hi⟩).type :=
        hs.rel_get_of_lt (a := ⟨j, hj⟩) (b := ⟨i, hi⟩) hji
      rw [hunk] at hrel
      have := channelTypePriority_ge_neg_one ((sortChannels l).get ⟨j, hj⟩).type
      exact hknown (le_antisymm hrel this)
    · exact hknown hunk

/-- Concrete instantiation of the unknown-type rule: a channel of type
"bot" sorts before a channel of type '' (the first priority class). -/
theorem channel_sort_unknown_type_first_witness :
    channelTypePriority (.str "bot") = -1 ∧ (0 : Nat) < 1 := by
  constructor
  · exact (channel_sort_unknown_type_first []).1 (.str "bot")
      (by decide) (by decide) (by decide) (by decide)
  · exact (channel_sort_unknown_type_first
      [{ id := "a", type := .str "", unread_count := none, last_message_at := none },
       { id := "b", type := .str "bot", unread_count := none, last_message_at := none }]).2
      0 1 (by decide) (by decide) (by decide) (by decide)

/-- An observable event of one executePythonAsWorker invocation
(lines 151-204): expiry of the 60000ms setTimeout, a message from the
pyodide worker, or an error event from the worker. -/
inductive SandboxEvent
  | deadline
  | workerMessage
  | workerError
deriving DecidableEq

/-- State of one executePythonAsWorker invocation: the executing flag
(line 155), whether pyodideWorker.terminate() has run (line 179), and how
many times the callback has fired. -/
structure SandboxState where
  executing : Bool
  terminated : Bool
  cbCount : Nat
deriving DecidableEq

/-- One event of an executePythonAsWorker invocation, from lines 175-203:
the timeout handler fires the callback, terminates the worker and clears
the executing flag only when executing is still set; onmessage and onerror
fire the callback unconditionally and clear the executing flag, but a
terminated worker delivers no further events (Worker.terminate
semantics). -/
def executePythonStep (s : SandboxState) : SandboxEvent → SandboxState
  | .deadline =>
    if s.executing then
      { executing := false, terminated := true, cbCount := s.cbCount + 1 }
    else s
  | .workerMessage =>
    if s.terminated then s
    else { s with executing := false, cbCount := s.cbCount + 1 }
  | .workerError =>
    if s.terminated then s
    else { s with executing := false, cbCount := s.cbCount + 1 }

/-- A whole invocation of executePythonAsWorker: fold the events over the
initial state executing := true (line 155). -/
def executePythonRun (events : List SandboxEvent) : SandboxState :=
  events.foldl executePythonStep { executing := true, terminated := false, cbCount := 0 }

/-- Events originating from the worker rather than from the timeout. -/
def isWorkerEvent : SandboxEvent → Bool
  | .deadline => false
  | .workerMessage => true
  | .workerError => true

/-- Every event of an invocation is either a worker event or the
deadline, so the two counts add up to the trace length. -/
theorem sandbox_count_partition :
    ∀ tr : List SandboxEvent,
      tr.countP isWorkerEvent + tr.count SandboxEvent.deadline = tr.length
  | [] => rfl
  | e :: tr => by
    have ih := sandbox_count_partition tr
    rcases e with _ | _ | _ <;>
      simp [List.countP_cons, List.count_cons, isWorkerEvent] <;> omega

/-- C1: in every invocation of executePythonAsWorker in which the 60000ms
deadline occurs exactly once and the worker delivers at most one terminal
event (one result message or one error event), the callback fires exactly
once, whatever the interleaving: the timeout path, the message path and
the error path are mutually exclusive. -/
theorem executePython_callback_once (tr : List SandboxEvent)
    (h1 : tr.count SandboxEvent.deadline = 1)
    (h2 : tr.countP isWorkerEvent ≤ 1) :
    (executePythonRun tr).cbCount = 1 := by
  match tr, h1, h2 with
  | [], h1, h2 => simp [List.count_nil] at h1
  | [a], h1, h2 => rcases a with _ | _ | _ <;> revert h1 h2 <;> decide
  | [a, b], h1, h2 =>
    rcases a with _ | _ | _ <;> rcases b with _ | _ | _ <;> revert h1 h2 <;> decide
  | a :: b :: c :: t, h1, h2 =>
    exfalso
    have hpart := sandbox_count_partition (a :: b :: c :: t)
    simp only [List.length_cons] at hpart
    omega

/-- Concrete instantiation of the exactly-once contract: the worker
answers first, then the deadline fires into the already-cleared flag. -/
theorem executePython_callback_once_witness :
    (executePythonRun [SandboxEvent.workerMessage, SandboxEvent.deadline]).cbCount = 1 :=
  executePython_callback_once [SandboxEvent.workerMessage, SandboxEvent.deadline]
    (by decide) (by decide)

/-- Outcome of the proxied chat-completion call inside the
request:chat:completion branch (lines 262-299): the body can throw before
any body bytes are read (a failing direct-connection lookup at lines
267-270, a rejected chatCompletion call at line 276, or a non-ok response
thrown at line 278), chatCompletion can resolve with a null response
(line 277 guard), or a response arrives whose body yields a list of
chunks, each decoding to a list of nonempty lines, after which the stream
either ends cleanly or a read throws mid-stream. -/
inductive ChatCompletionResult
  | throwEarly
  | nullRes
  | okRes (body : String) (chunks : List (List String)) (failsMidStream : Bool)
deriving DecidableEq

/-- A frame emitted on the socket by the handler: a relayed stream line
on the event's channel (line 287) or the done marker (line 297). -/
inductive SocketEmit
  | line (channel : String) (content : String)
  | doneMarker (channel : String)
deriving DecidableEq

/-- A value passed to the acknowledgment callback: the immediate
streaming acknowledgment of line 280, a response body (line 290), or the
caught error (line 295). -/
inductive CbValue
  | statusTrue
  | body (s : String)
  | caughtError
deriving DecidableEq

/-- The try block of the request:chat:completion branch (lines 264-293):
emitted socket lines, callback values, and whether the block threw. -/
def requestChatCompletionTry (stream : Bool) (r : ChatCompletionResult) (channel : String) :
    List SocketEmit × List CbValue × Bool :=
  match r with
  | .throwEarly => ([], [], true)
  | .nullRes => ([], [], false)
  | .okRes body chunks fails =>
    if stream then
      (chunks.flatten.map (SocketEmit.line channel), [CbValue.statusTrue], fails)
    else
      ([], [CbValue.body body], false)

/-- The whole request:chat:completion branch (lines 262-299): the try
block, then the catch clause calling cb(error) (line 295), then the
finally clause emitting the done marker on the channel (line 297). -/
def requestChatCompletion (stream : Bool) (r : ChatCompletionResult) (channel : String) :
    List SocketEmit × List CbValue :=
  let t := requestChatCompletionTry stream r channel
  (t.1 ++ [SocketEmit.doneMarker channel],
   t.2.1 ++ if t.2.2 then [CbValue.caughtError] else [])

/-- C2: whatever the outcome of the proxied call — success, an early
throw, a null response, or a throw mid-stream after any number of relayed
chunks — the request:chat:completion handler emits the done marker on the
event's channel as its final socket emission, and in the mid-stream
failure case the previously decoded lines are still relayed before the
marker while the callback receives the acknowledgment and then the caught
error. -/
theorem requestChatCompletion_done_marker (stream : Bool) (r : ChatCompletionResult)
    (channel : String) :
    (∃ pre, (requestChatCompletion stream r channel).1 = pre ++ [SocketEmit.doneMarker channel])
    ∧ (∀ body chunks,
        requestChatCompletion true (.okRes body chunks true) channel =
          (chunks.flatten.map (SocketEmit.line channel) ++ [SocketEmit.doneMarker channel],
           [CbValue.statusTrue, CbValue.caughtError]))
    ∧ requestChatCompletion stream .throwEarly channel =
        ([SocketEmit.doneMarker channel], [CbValue.caughtError]) := by
  refine ⟨⟨(requestChatCompletionTry stream r channel).1, rfl⟩, ?_, rfl⟩
  intro body chunks
  simp [requestChatCompletion, requestChatCompletionTry]

/-- The stores read by channelEventHandler (lines 303-347): the cached
channel list (possibly never fetched), the currently selected channel id,
and the current user id. -/
structure RouterState where
  channels : Option (List Channel)
  channelId : Option String
  userId : Option String
deriving DecidableEq

/-- The fields of an inbound channel event read by channelEventHandler:
channel_id, the author id event?.user?.id, created_at, and the inner
event type event.data?.type. -/
structure ChannelEvent where
  channel_id : String
  user_id : Option String
  created_at : Option Int
  type : JsVal
deriving DecidableEq

/-- What channelEventHandler decides to do with the channel list: leave
it alone, replace it functionally with a given list (line 324), or
re-fetch and re-sort it (lines 307-310 and 330-331). -/
inductive ChannelAction
  | noop
  | setChannels (chs : List Channel)
  | refetch
deriving DecidableEq

/-- The per-channel function of the map at lines 324-328: a channel is
rebuilt with unread_count incremented (missing count read as 0) and
last_message_at set to event.created_at exactly when its id is the
event's channel and the event type is message; every other channel is
returned unchanged. -/
def bumpChannel (ev : ChannelEvent) (ch : Channel) : Channel :=
  if ch.id = ev.channel_id ∧ ev.type = JsVal.str "message" then
    { ch with unread_count := some (ch.unread_count.getD 0 + 1),
              last_message_at := ev.created_at }
  else ch

/-- The channel-list decision of channelEventHandler (lines 303-333):
typing events are dropped (line 304), channel:created events re-fetch and
return (lines 306-312), and the rest runs under the gate
(!onChannelPage || isFocused) && event.user.id !== user.id (line 317)
where isFocused is visibilityState !== visible (line 314); under the gate,
with a cached list, a locally present channel that is not the currently
selected one gets the functional map replacement, otherwise a re-fetch
(lines 322-333); without a cached list nothing happens. -/
def channelEventHandler (st : RouterState) (visible : Bool) (onChannelPage : Bool)
    (ev : ChannelEvent) : ChannelAction :=
  if ev.type = JsVal.str "typing" then .noop
  else if ev.type = JsVal.str "channel:created" then .refetch
  else if (onChannelPage = false ∨ visible = false) ∧ ev.user_id ≠ st.userId then
    match st.channels with
    | none => .noop
    | some chs =>
      if (chs.any fun ch => ch.id == ev.channel_id) ∧ st.channelId ≠ some ev.channel_id then
        .setChannels (chs.map (bumpChannel ev))
      else .refetch
  else .noop

/-- C4 counterexample: a message event for a channel that is present in
the local list, authored by another user, reaching the handler with the
tab hidden, while that channel is the currently selected one
(channelId = event.channel_id): the claim requires the in-place
unread_count increment, but the handler triggers a full re-fetch
instead. -/
theorem channelEventHandler_inplace_cex :
    channelEventHandler
        { channels := some [{ id := "c1", type := .str "group",
                              unread_count := some 0, last_message_at := some 5 }],
          channelId := some "c1", userId := some "me" }
        false false
        { channel_id := "c1", user_id := some "other",
          created_at := some 99, type := .str "message" } =
      ChannelAction.refetch
    ∧ channelEventHandler
        { channels := some [{ id := "c1", type := .str "group",
                              unread_count := some 0, last_message_at := some 5 }],
          channelId := some "c1", userId := some "me" }
        false false
        { channel_id := "c1", user_id := some "other",
          created_at := some 99, type := .str "message" } ≠
      ChannelAction.setChannels
        [{ id := "c1", type := .str "group",
           unread_count := some 1, last_message_at := some 99 }] := by
  decide

/-- C4 as amended: under the gate, for a non-typing non-channel:created
event, a missing channel list means no action; with a cached list, the
functional map replacement happens only when the affected channel is
present and is not the currently selected one, and the map bumps
unread_count and last_message_at only on that channel and only for
message events, leaving length, order, and every other channel untouched;
in all remaining cached-list cases a full re-fetch is triggered. -/
theorem channelEventHandler_update_spec (st : RouterState) (visible onPage : Bool)
    (ev : ChannelEvent)
    (ht : ev.type ≠ JsVal.str "typing") (hc : ev.type ≠ JsVal.str "channel:created")
    (hgate1 : onPage = false ∨ visible = false) (hgate2 : ev.user_id ≠ st.userId) :
    (st.channels = none → channelEventHandler st visible onPage ev = .noop)
    ∧ (∀ chs, st.channels = some chs →
        ((chs.any fun ch => ch.id == ev.channel_id) = true →
            st.channelId ≠ some ev.channel_id →
            channelEventHandler st visible onPage ev =
              .setChannels (chs.map (bumpChannel ev)))
        ∧ ((chs.any fun ch => ch.id == ev.channel_id) = false ∨
              st.channelId = some ev.channel_id →
            channelEventHandler st visible onPage ev = .refetch)
        ∧ (chs.map (bumpChannel ev)).length = chs.length
        ∧ (∀ ch, ch.id ≠ ev.channel_id → bumpChannel ev ch = ch)
        ∧ (∀ ch, ev.type ≠ JsVal.str "message" → bumpChannel ev ch = ch)
        ∧ (∀ ch, ch.id = ev.channel_id → ev.type = JsVal.str "message" →
            bumpChannel ev ch =
              { ch with unread_count := some (ch.unread_count.getD 0 + 1),
                        last_message_at := ev.created_at })) := by
  constructor
  · intro hnone
    simp only [channelEventHandler, if_neg ht, if_neg hc,
      if_pos (And.intro hgate1 hgate2), hnone]
  · intro chs hchs
    have hred : channelEventHandler st visible onPage ev =
        if (chs.any fun ch => ch.id == ev.channel_id) = true ∧
            st.channelId ≠ some ev.channel_id then
          ChannelAction.setChannels (chs.map (bumpChannel ev))
        else ChannelAction.refetch := by
      simp only [channelEventHandler, if_neg ht, if_neg hc,
        if_pos (And.intro hgate1 hgate2), hchs]
    refine ⟨?_, ?_, by simp, ?_, ?_, ?_⟩
    · intro hfound hne
      rw [hred, if_pos ⟨hfound, hne⟩]
    · intro h
      rw [hred, if_neg]
      rintro ⟨hfound, hne⟩
      rcases h with h | h
      · exact absurd (hfound.symm.trans h) (by decide)
      · exact hne h
    · intro ch hid
      simp [bumpChannel, hid]
    · intro ch hmsg
      simp [bumpChannel, hmsg]
    · intro ch hid hmsg
      simp [bumpChannel, hid, hmsg]

/-- Concrete instantiation of the amended C4: a message event from
another user for a present, non-selected channel, with the tab visible
but a different page open, yields the functional replacement. -/
theorem channelEventHandler_update_spec_witness :
    channelEventHandler
        { channels := some [{ id := "c2", type := .null,
                              unread_count := none, last_message_at := none }],
          channelId := none, userId := some "me" }
        true false
        { channel_id := "c2", user_id := some "other",
          created_at := some 7, type := .str "message" } =
      ChannelAction.setChannels
        ([{ id := "c2", type := .null,
            unread_count := none, last_message_at := none }].map
          (bumpChannel
            { channel_id := "c2", user_id := some "other",
              created_at := some 7, type := .str "message" })) :=
  (((channelEventHandler_update_spec
      { channels := some [{ id := "c2", type := .null,
                            unread_count := none, last_message_at := none }],
        channelId := none, userId := some "me" }
      true false
      { channel_id := "c2", user_id := some "other",
        created_at := some 7, type := .str "message" }
      (by decide) (by decide) (Or.inl rfl) (by decide)).2
    [{ id := "c2", type := .null, unread_count := none, last_message_at := none }]
    rfl).1 (by decide) (by decide))

/-- The chat-side cached stores touched by the re-fetch branches of
chatEventHandler (lines 251-256): the current chat-list page, the cached
chat list, and the cached tag list (both opaque here). -/
structure ChatSt where
  currentChatPage : Nat
  chats : Option (List String)
  tags : Option (List String)
deriving DecidableEq

/-- The chat:title branch (lines 251-253): currentChatPage.set(1), then
chats.set(await getChatList(...)) with no catch around the await.  The
returned Bool is whether the collaborator's rejection escaped the
handler; the page store is already mutated when that happens. -/
def chatTitleRefetch (st : ChatSt) (api : Except Unit (Option (List String))) :
    ChatSt × Bool :=
  let st1 := { st with currentChatPage := 1 }
  match api with
  | .error _ => (st1, true)
  | .ok v => ({ st1 with chats := v }, false)

/-- The chat:tags branch (lines 254-255): tags.set(await getAllTags(...))
with no catch around the await. -/
def chatTagsRefetch (st : ChatSt) (api : Except Unit (Option (List String))) :
    ChatSt × Bool :=
  match api with
  | .error _ => (st, true)
  | .ok v => ({ st with tags := v }, false)

/-- The channel-list re-fetch used at lines 307-310 and 330-331:
getChannels(...).catch(() => null) followed by the if (res) guard, then
channels.set(res.sort(comparator)).  A rejected or null result leaves the
store untouched and nothing ever escapes. -/
def refetchChannels (cur : Option (List Channel))
    (api : Except Unit (Option (List Channel))) : Option (List Channel) × Bool :=
  match api with
  | .error _ => (cur, false)
  | .ok none => (cur, false)
  | .ok (some res) => (some (sortChannels res), false)

/-- C5 counterexample: on chat:title with a failing chat-list
collaborator, the rejection escapes the handler and the cached
currentChatPage has already been changed to 1, so the failure is neither
swallowed nor state-preserving. -/
theorem refetch_error_policy_cex :
    (chatTitleRefetch { currentChatPage := 3, chats := some ["c"], tags := none }
        (Except.error ())).2 = true
    ∧ (chatTitleRefetch { currentChatPage := 3, chats := some ["c"], tags := none }
        (Except.error ())).1 ≠
      { currentChatPage := 3, chats := some ["c"], tags := none } := by
  decide

/-- C5 as amended: only the channel-list re-fetches swallow collaborator
failures (resolve to null, keep the cached list, never escape); the
chat:title and chat:tags re-fetches have no catch, so a collaborator
failure escapes the handler — with the page counter already reset to 1 in
the chat:title case, though the cached chat and tag lists themselves are
only replaced on success. -/
theorem refetch_error_policy (cur : Option (List Channel)) (st : ChatSt) :
    (refetchChannels cur (Except.error ())).1 = cur
    ∧ (∀ api, (refetchChannels cur api).2 = false)
    ∧ (refetchChannels cur (Except.ok none)).1 = cur
    ∧ (chatTitleRefetch st (Except.error ())).2 = true
    ∧ (chatTitleRefetch st (Except.error ())).1.currentChatPage = 1
    ∧ (chatTitleRefetch st (Except.error ())).1.chats = st.chats
    ∧ (chatTagsRefetch st (Except.error ())).2 = true
    ∧ (chatTagsRefetch st (Except.error ())).1 = st := by
  refine ⟨rfl, ?_, rfl, rfl, rfl, rfl, rfl, rfl⟩
  intro api
  rcases api with _ | v
  · rfl
  · rcases v with _ | res <;> rfl

/-- A configured tool server from settings: its URL, declared auth type
(absent means bearer, line 212) and stored key. -/
structure ToolServer where
  url : String
  auth_type : Option String
  key : Option String
deriving DecidableEq

/-- The fields of the execute:tool command payload read by executeTool:
data.server?.url and data?.name (the params are opaque and ride along
with the forwarded call). -/
structure ToolCallData where
  serverUrl : Option String
  name : Option String
deriving DecidableEq

/-- The observable outcome of executeTool: the callback receives a
structured error object, or the call is forwarded to executeToolServer
with the selected credential and its serialized result is relayed to the
callback. -/
inductive ToolOutcome
  | cbError (msg : String)
  | forwarded (token : Option String) (url : String) (name : Option String)
deriving DecidableEq

/-- executeTool (lines 206-224): look up the configured tool server by
strict URL equality against data.server?.url; if none matches, call back
with the Tool Server Not Found error (taking no other action, so nothing
can throw on that path); otherwise pick the credential from
auth_type ?? bearer — bearer takes the server's stored key, session takes
the local session credential, anything else leaves it null — and forward
the call.  The parallel toolServers-store lookup of line 208 only
supplies an extra argument to the forwarded call and cannot change the
outcome shape, so it is not modelled. -/
def executeTool (settingsToolServers : Option (List ToolServer))
    (localToken : Option String) (data : ToolCallData) : ToolOutcome :=
  match (settingsToolServers.getD []).find? (fun s => data.serverUrl == some s.url) with
  | none => .cbError "Tool Server Not Found"
  | some ts =>
    let authType := ts.auth_type.getD "bearer"
    let token : Option String :=
      if authType = "bearer" then ts.key
      else if authType = "session" then localToken
      else none
    .forwarded token ts.url data.name

/-- C6: when no configured tool server matches the requested URL the
callback gets exactly the Tool Server Not Found error and the total
function takes no other action (never throws); when one matches, bearer
auth forwards with the server's own stored key and session auth forwards
with the local session credential. -/
theorem executeTool_spec (servers : Option (List ToolServer))
    (localToken : Option String) (data : ToolCallData) :
    ((servers.getD []).find? (fun s => data.serverUrl == some s.url) = none →
      executeTool servers localToken data = .cbError "Tool Server Not Found")
    ∧ (∀ ts, (servers.getD []).find? (fun s => data.serverUrl == some s.url) = some ts →
        (ts.auth_type.getD "bearer" = "bearer" →
          executeTool servers localToken data = .forwarded ts.key ts.url data.name)
        ∧ (ts.auth_type.getD "bearer" = "session" →
          executeTool servers localToken data = .forwarded localToken ts.url data.name)) := by
  constructor
  · intro hnone
    simp only [executeTool, hnone]
  · intro ts hts
    constructor
    · intro hauth
      simp [executeTool, hts, hauth]
    · intro hauth
      simp [executeTool, hts, hauth]

/-- Concrete instantiation: an unconfigured URL yields the structured
error, and a configured bearer server forwards with its own key. -/
theorem executeTool_spec_witness :
    executeTool none (some "tok") { serverUrl := some "http://t", name := some "f" } =
      ToolOutcome.cbError "Tool Server Not Found"
    ∧ executeTool (some [{ url := "http://t", auth_type := none, key := some "k" }])
        (some "tok") { serverUrl := some "http://t", name := some "f" } =
      ToolOutcome.forwarded (some "k") "http://t" (some "f") :=
  ⟨(executeTool_spec none (some "tok")
      { serverUrl := some "http://t", name := some "f" }).1 (by decide),
   ((executeTool_spec (some [{ url := "http://t", auth_type := none, key := some "k" }])
      (some "tok") { serverUrl := some "http://t", name := some "f" }).2
      { url := "http://t", auth_type := none, key := some "k" } (by decide)).1 (by decide)⟩

/-- The session state read and written by checkTokenExpiry
(lines 349-358): the signed-in user's expires_at (none when no user is
set or the field is absent or null), the stored credential, and the page
location. -/
structure SessionSt where
  userExpiresAt : Option Int
  hasToken : Bool
  location : String
deriving DecidableEq

/-- checkTokenExpiry (lines 349-358): exp = user?.expires_at is tested
for JavaScript truthiness (undefined, null and 0 are all falsy), and when
truthy and now >= exp - 60 the handler signs out: the user store is
cleared, the stored credential removed, and the location set to the
sign-out response's redirect_url ?? /auth.  The Bool records whether
sign-out happened. -/
def checkTokenExpiry (st : SessionSt) (now : Int) (redirectUrl : Option String) :
    SessionSt × Bool :=
  match st.userExpiresAt with
  | some e =>
    if e ≠ 0 ∧ now ≥ e - 60 then
      ({ userExpiresAt := none, hasToken := false,
         location := redirectUrl.getD "/auth" }, true)
    else (st, false)
  | none => (st, false)

/-- The sign-out condition of checkTokenExpiry, isolated: the flag is set
exactly when expires_at is present, truthy, and within 60 seconds of or
past now. -/
theorem checkTokenExpiry_signout_iff (st : SessionSt) (now : Int) (r : Option String) :
    (checkTokenExpiry st now r).2 = true ↔
      ∃ e, st.userExpiresAt = some e ∧ e ≠ 0 ∧ now ≥ e - 60 := by
  rcases hexp : st.userExpiresAt with _ | e
  · simp [checkTokenExpiry, hexp]
  · simp only [checkTokenExpiry, hexp]
    split_ifs with hcond
    · exact ⟨fun _ => ⟨e, rfl, hcond⟩, fun _ => rfl⟩
    · constructor
      · intro h
        exact absurd h (by decide)
      · rintro ⟨f, hf, hfc⟩
        exfalso
        have hef : e = f := by injection hf
        subst hef
        exact absurd hfc hcond

/-- C7: checkTokenExpiry signs out — clearing the session, removing the
credential and redirecting — exactly when the session carries a (nonzero)
expiry and now is within 60 seconds of or past it; in particular an
expiry of now + 30 signs out and an expiry of now + 120 does not. -/
theorem checkTokenExpiry_spec (st : SessionSt) (now : Int) (r : Option String) :
    ((checkTokenExpiry st now r).2 = true ↔
      ∃ e, st.userExpiresAt = some e ∧ e ≠ 0 ∧ now ≥ e - 60)
    ∧ ((checkTokenExpiry st now r).2 = true →
        (checkTokenExpiry st now r).1 =
          { userExpiresAt := none, hasToken := false, location := r.getD "/auth" })
    ∧ ((checkTokenExpiry st now r).2 = false → (checkTokenExpiry st now r).1 = st)
    ∧ (0 ≤ now → st.userExpiresAt = some (now + 30) →
        (checkTokenExpiry st now r).2 = true)
    ∧ (st.userExpiresAt = some (now + 120) → (checkTokenExpiry st now r).2 = false) := by
  have hiff := checkTokenExpiry_signout_iff st now r
  refine ⟨hiff, ?_, ?_, ?_, ?_⟩
  · intro htrue
    rcases hexp : st.userExpiresAt with _ | e
    · simp [checkTokenExpiry, hexp] at htrue
    · simp only [checkTokenExpiry, hexp] at htrue ⊢
      split_ifs at htrue ⊢ with hcond
      rfl
  · intro hfalse
    rcases hexp : st.userExpiresAt with _ | e
    · simp [checkTokenExpiry, hexp]
    · simp only [checkTokenExpiry, hexp] at hfalse ⊢
      split_ifs at hfalse ⊢ with hcond
      rfl
  · intro hnow h30
    exact hiff.mpr ⟨now + 30, h30, by omega, by omega⟩
  · intro h120
    rw [Bool.eq_false_iff]
    intro ht
    rcases hiff.mp ht with ⟨e, he, hne, hge⟩
    have h2 : now + 120 = e := by
      have h3 := h120.symm.trans he
      injection h3
    omega

/-- Concrete instantiation of the expiry rule: at now = 1000, an expiry
of 1030 signs out and an expiry of 1120 does not. -/
theorem checkTokenExpiry_spec_witness :
    (checkTokenExpiry { userExpiresAt := some 1030, hasToken := true, location := "/" }
        1000 none).2 = true
    ∧ (checkTokenExpiry { userExpiresAt := some 1120, hasToken := true, location := "/" }
        1000 none).2 = false :=
  ⟨(checkTokenExpiry_spec
      { userExpiresAt := some 1030, hasToken := true, location := "/" } 1000 none).2.2.2.1
      (by decide) (by decide),
   (checkTokenExpiry_spec
      { userExpiresAt := some 1120, hasToken := true, location := "/" } 1000 none).2.2.2.2
      (by decide)⟩

/-- C9: with expires_at absent, null (both modelled as none) or zero, a
call of checkTokenExpiry is a no-op for any current time: the session
state, the stored credential and the location are unchanged and no
sign-out happens. -/
theorem checkTokenExpiry_noop (st : SessionSt) (now : Int) (r : Option String)
    (h : st.userExpiresAt = none ∨ st.userExpiresAt = some 0) :
    checkTokenExpiry st now r = (st, false) := by
  rcases h with h | h <;> simp [checkTokenExpiry, h]

/-- Concrete instantiation of the no-op rule at expires_at = 0, long in
the past of now = 99999. -/
theorem checkTokenExpiry_noop_witness :
    checkTokenExpiry { userExpiresAt := some 0, hasToken := true, location := "/" }
        99999 none =
      ({ userExpiresAt := some 0, hasToken := true, location := "/" }, false) :=
  checkTokenExpiry_noop
    { userExpiresAt := some 0, hasToken := true, location := "/" } 99999 none
    (Or.inr rfl)

/-- The document visibility state seen by handleVisibilityChange. -/
inductive VisState
  | visible
  | hidden
deriving DecidableEq

/-- The effects of one visibilitychange callback: the new local
isLastActiveTab flag, whether an active message was posted on the
broadcast channel, and whether checkTokenExpiry was triggered. -/
structure VisEffects where
  isLastActiveTab : Bool
  broadcastActive : Bool
  checkedExpiry : Bool
deriving DecidableEq

/-- handleVisibilityChange (lines 408-414): on a change to visible it
unconditionally sets isLastActiveTab to true, posts the active message,
and runs checkTokenExpiry; on any other visibility state it does
nothing. -/
def handleVisibilityChange (vis : VisState) (current : Bool) : VisEffects :=
  match vis with
  | .visible => { isLastActiveTab := true, broadcastActive := true, checkedExpiry := true }
  | .hidden => { isLastActiveTab := current, broadcastActive := false, checkedExpiry := false }

/-- The broadcast-channel receiver bc.onmessage (lines 404-406): an
active message clears the local flag, anything else is ignored. -/
def bcOnMessage (msg : String) (current : Bool) : Bool :=
  if msg = "active" then false else current

/-- One settled claim in the multi-tab protocol: tab i becomes visible
(handleVisibilityChange sets its flag) and its broadcast is delivered to
every other tab (bcOnMessage clears theirs) before the next claim.  The
system state maps each tab id to its isLastActiveTab flag. -/
def settledClaim (s : Nat → Bool) (i : Nat) : Nat → Bool := fun j =>
  if j = i then (handleVisibilityChange .visible (s j)).isLastActiveTab
  else bcOnMessage "active" (s j)

/-- A settled sequence of visibility claims, applied in order. -/
def settleAll (s : Nat → Bool) (l : List Nat) : Nat → Bool :=
  l.foldl settledClaim s

/-- After a settled nonempty claim sequence, a tab's flag is set exactly
when it made the last claim. -/
theorem settleAll_getLast :
    ∀ (l : List Nat) (s : Nat → Bool) (j : Nat), l ≠ [] →
      (settleAll s l j = true ↔ l.getLast? = some j)
  | [], _, _, h => absurd rfl h
  | [i], s, j, _ => by
    simp only [settleAll, List.foldl, settledClaim, handleVisibilityChange, bcOnMessage,
      List.getLast?_singleton]
    by_cases h : j = i
    · simp [h]
    · simp only [if_neg h]
      constructor
      · intro hfe
        simp at hfe
      · intro hsome
        exfalso
        have : i = j := by injection hsome
        exact h this.symm
  | i :: b :: t, s, j, _ => by
    have step : settleAll s (i :: b :: t) j = settleAll (settledClaim s i) (b :: t) j := rfl
    rw [step, settleAll_getLast (b :: t) (settledClaim s i) j (by simp),
      List.getLast?_cons_cons]

/-- C8: a visibility change to visible unconditionally sets the local
active-tab flag, broadcasts the active message and triggers the expiry
check; a received active broadcast clears the flag; and after any settled
nonempty sequence of claims exactly the last claimant's flag is true, so
at most one tab holds the flag. -/
theorem tab_coordinator_spec :
    (∀ cur, handleVisibilityChange .visible cur =
        { isLastActiveTab := true, broadcastActive := true, checkedExpiry := true })
    ∧ (∀ cur, bcOnMessage "active" cur = false)
    ∧ (∀ (s : Nat → Bool) (l : List Nat) (j : Nat), l ≠ [] →
        (settleAll s l j = true ↔ l.getLast? = some j)) :=
  ⟨fun _ => rfl, fun _ => rfl, fun s l j h => settleAll_getLast l s j h⟩

/-- Concrete instantiation: with both tabs initially claiming the flag,
after tab 0 claims and then tab 1 claims, tab 1 holds the flag (and tab 0
does not). -/
theorem tab_coordinator_spec_witness :
    (settleAll (fun _ => true) [0, 1] 1 = true ↔ [0, 1].getLast? = some 1)
    ∧ settleAll (fun _ => true) [0, 1] 0 = false :=
  ⟨tab_coordinator_spec.2.2 (fun _ => true) [0, 1] 1 (by decide), by decide⟩
